import Mathlib

/-!
Shallow embedding of the RRset reconciliation engine of the PowerDNS-Operator
repository (src/internal/controller/rrset_controller.go), together with proofs
of the behavioural properties stated in the specification.

The embedding translates the `Reconcile` method and its helpers
(`deleteExternalResources`, `createOrUpdateExternalResources`, the field
indexer of `SetupWithManager`) into pure Lean functions.  Every external
interaction (Kubernetes API get/update/patch/list, PowerDNS API
get/change/delete) is represented by an explicit environment `Env` carrying the
outcome each call would produce, and the external DNS server is threaded
through as an explicit list of record-sets.  Each reconcile invocation returns
the controller result, the persisted object state, the resulting external
server state, and the ordered trace of external calls performed.
-/

namespace PowerDNSOperator

/-- Error kinds distinguished by the controller on external calls
(`errors.IsNotFound`, `errors.IsConflict`, everything else). -/
inductive KubeErr where
  | notFound
  | conflict
  | other (msg : String)
deriving DecidableEq, Repr

/-- Mirror of `errors.IsNotFound`. -/
def KubeErr.isNotFound : KubeErr → Bool
  | .notFound => true
  | _ => false

/-- Mirror of `errors.IsConflict`. -/
def KubeErr.isConflict : KubeErr → Bool
  | .conflict => true
  | _ => false

/-- Mirror of `err.Error()`, the message carried by an error. -/
def KubeErr.message : KubeErr → String
  | .notFound => "not found"
  | .conflict => "conflict"
  | .other m => m

/-- Go constant `FAILED_STATUS`. -/
def FAILED_STATUS : String := "Failed"

/-- Go constant `SUCCEEDED_STATUS`. -/
def SUCCEEDED_STATUS : String := "Succeeded"

/-- The spec of an RRset object: parent-zone reference, record type, TTL,
record values and optional comment (data model of the spec, fields used by
`rrset_controller.go` as `rrset.Spec.*`). -/
structure RRsetSpec where
  zoneRefName : String
  type : String
  ttl : Nat
  records : List String
  comment : Option String
deriving DecidableEq, Repr

/-- The status sub-object of an RRset
(`lastUpdateTime`, `dnsEntryName`, `syncStatus`, `syncErrorDescription`),
every field a nullable pointer in Go, hence an `Option` here.  Timestamps are
abstracted to `Nat`. -/
structure RRsetStatus where
  lastUpdateTime : Option Nat
  dnsEntryName : Option String
  syncStatus : Option String
  syncErrorDescription : Option String
deriving DecidableEq, Repr

/-- A desired RRset object: identity, spec, status, the presence of the
deferred-cleanup finalizer, and the deletion timestamp (`none` models
`DeletionTimestamp.IsZero()`). -/
structure RRset where
  name : String
  nspace : String
  spec : RRsetSpec
  status : RRsetStatus
  hasFinalizer : Bool
  deletionTimestamp : Option Nat
deriving DecidableEq, Repr

/-- A comment attached to an external record-set (`powerdns.Comment`). -/
structure ExtComment where
  content : String
  account : Option String
deriving DecidableEq, Repr

/-- A record-set as held by the external PowerDNS server (`powerdns.RRset`);
`name` is a nullable pointer in Go, hence an `Option`. -/
structure ExtRRset where
  name : Option String
  rtype : Option String
  ttl : Option Nat
  records : List String
  comments : List ExtComment
deriving DecidableEq, Repr

/-- Modelled from the spec: canonicalization puts DNS names in
fully-qualified trailing-dot form (the helper `makeCanonical`, which is not
part of the sources under src/). -/
def makeCanonical (s : String) : String :=
  if s.endsWith "." then s else s ++ "."

/-- Modelled from the spec: the resolved fully-qualified DNS entry name of a
record-set, derived from its own name and its parent-zone reference and stored
in canonical trailing-dot form (the helper `getRRsetName`, which is not part
of the sources under src/). -/
def getRRsetName (r : RRset) : String :=
  makeCanonical (r.name ++ "." ++ r.spec.zoneRefName)

/-- Modelled from the spec: the diff of 4.3 — a desired record-set is
identical to an external one when TTL, record type, canonicalized value list
and comment all agree; an absent desired comment matches any external comment
(the helper `rrsetIsIdenticalToExternalRRset`, not part of the sources under
src/). -/
def rrsetIsIdenticalToExternalRRset (r : RRset) (ext : ExtRRset) : Bool :=
  ext.rtype == some r.spec.type &&
  ext.ttl == some r.spec.ttl &&
  ext.records == r.spec.records.map makeCanonical &&
  (match r.spec.comment with
   | none => true
   | some c => ext.comments.map (fun cm => cm.content) == [c])

/-- The external calls a reconcile invocation can perform, in order, forming
the observable trace of the invocation.  `metricsUpdate` records the key of
the published observability entry (`updateRrsetsMetrics`), `metricsRemove`
its retraction (`removeRrsetMetrics`). -/
inductive Event where
  | pdnsGet
  | pdnsChange
  | pdnsDelete
  | addFinalizer
  | removeFinalizerUpdate
  | listDupQuery
  | ownObjectCall
  | statusPatchCall
  | metricsUpdate (fqdn : String) (rtype : String) (status : String)
  | metricsRemove
deriving DecidableEq, Repr

/-- Mirror of `ctrl.Result`: an immediate-requeue flag and a requeue-after delay in
seconds (0 = none). -/
structure CtrlResult where
  requeue : Bool
  requeueAfterSec : Nat
deriving DecidableEq, Repr

/-- The pair `(ctrl.Result, error)` returned by `Reconcile`: either a result
with a nil error, or a non-nil error (whose result is the zero value). -/
inductive RetVal where
  | ok (res : CtrlResult)
  | err (msg : String)
deriving DecidableEq, Repr

/-- Everything one reconcile invocation produces: the returned value, the
persisted state of the object, the state of the external DNS server, and the
trace of external calls. -/
structure Outcome where
  ret : RetVal
  rrset : RRset
  server : List ExtRRset
  events : List Event
deriving DecidableEq, Repr

/-- The outcome every external call of one invocation would have, injected as
an explicit environment: `rrsetGet`/`zoneGet` are the two `r.Get` calls,
`updateFinalizerAdd`/`updateFinalizerRemove` the `r.Update` calls around
finalizer changes, `listDup` the result of the uniqueness-index `r.List`
(number of claimants), `recordsGet`/`changeResult`/`deleteResult` the PowerDNS
client calls (payload of a successful get comes from the threaded server
state), `ownObject` the ownership update, `statusPatch` the status patch, and
`now` the current time. -/
structure Env where
  now : Nat
  rrsetGet : Except KubeErr Unit
  zoneGet : Except KubeErr Unit
  updateFinalizerAdd : Except KubeErr Unit
  updateFinalizerRemove : Except KubeErr Unit
  listDup : Except KubeErr Nat
  recordsGet : Except KubeErr Unit
  changeResult : Except KubeErr Unit
  deleteResult : Except KubeErr Unit
  ownObject : Except KubeErr Unit
  statusPatch : Except KubeErr Unit
deriving Repr

/-- The record-set the server holds after a successful `Change` call for `r`
(upsert of name, type, TTL, canonicalized values, and the comment authored by
the fixed operator account when the spec supplies one). -/
def recordOfSpec (r : RRset) : ExtRRset :=
  { name := some (makeCanonical (getRRsetName r))
  , rtype := some r.spec.type
  , ttl := some r.spec.ttl
  , records := r.spec.records.map makeCanonical
  , comments :=
      match r.spec.comment with
      | none => []
      | some c => [{ content := c, account := some "powerdns-operator" }] }

/-- Server-side effect of `Records.Change`: replace any record-set with the
same canonical name and type by the one described by `r`. -/
def serverApply (server : List ExtRRset) (r : RRset) : List ExtRRset :=
  recordOfSpec r ::
    server.filter (fun e =>
      !(e.name == some (makeCanonical (getRRsetName r)) &&
        e.rtype == some r.spec.type))

/-- Server-side effect of `Records.Delete`: remove any record-set with the
same canonical name and type. -/
def serverDelete (server : List ExtRRset) (r : RRset) : List ExtRRset :=
  server.filter (fun e =>
    !(e.name == some (makeCanonical (getRRsetName r)) &&
      e.rtype == some r.spec.type))

/-- The filtering loop of `createOrUpdateExternalResources`: the first fetched
entry whose name equals `makeCanonical(name)` (defence against the upstream
defect that returns stray entries). -/
def syncFind (server : List ExtRRset) (r : RRset) : Option ExtRRset :=
  server.find? (fun fr => fr.name == some (makeCanonical (getRRsetName r)))

/-- Whether the fetched records contain an entry for `r` that is identical to
the desired state (the condition under which `createOrUpdateExternalResources`
returns without calling `Change`). -/
def findsIdentical (server : List ExtRRset) (r : RRset) : Bool :=
  match syncFind server r with
  | some fr => rrsetIsIdenticalToExternalRRset r fr
  | none => false

/-- Embedding of `deleteExternalResources`: issue the PowerDNS `Delete` call; on failure
return the error, on success return the new server state. -/
def deleteExternalResources (env : Env) (server : List ExtRRset) (r : RRset) :
    Except String (List ExtRRset) × List Event :=
  match env.deleteResult with
  | .error e => (.error e.message, [.pdnsDelete])
  | .ok _ => (.ok (serverDelete server r), [.pdnsDelete])

/-- Embedding of `createOrUpdateExternalResources`: fetch the candidate external
record-set (tolerating NotFound), filter it to the canonical name, return
`(changed := false)` if an identical record exists, otherwise issue `Change`;
returns the change flag or error, the new server state, and the trace. -/
def createOrUpdateExternalResources (env : Env) (server : List ExtRRset)
    (r : RRset) : Except String Bool × List ExtRRset × List Event :=
  match env.recordsGet with
  | .error e =>
      if e.isNotFound then
        -- fetched record list is empty, no identical record: Change is called
        match env.changeResult with
        | .error e2 => (.error e2.message, server, [.pdnsGet, .pdnsChange])
        | .ok _ => (.ok true, serverApply server r, [.pdnsGet, .pdnsChange])
      else
        (.error e.message, server, [.pdnsGet])
  | .ok _ =>
      match syncFind server r with
      | some fr =>
          if rrsetIsIdenticalToExternalRRset r fr then
            (.ok false, server, [.pdnsGet])
          else
            match env.changeResult with
            | .error e2 => (.error e2.message, server, [.pdnsGet, .pdnsChange])
            | .ok _ => (.ok true, serverApply server r, [.pdnsGet, .pdnsChange])
      | none =>
          match env.changeResult with
          | .error e2 => (.error e2.message, server, [.pdnsGet, .pdnsChange])
          | .ok _ => (.ok true, serverApply server r, [.pdnsGet, .pdnsChange])

/-- The part of `Reconcile` from the `isInFailedStatus` check (line 142)
onward: failed-status early return, uniqueness-index duplicate check, external
sync, ownership update, status patch and metrics publication.  `lastUpdateTime`
is the value of the local variable at that point, `isInFailedStatus` the flag
computed at entry, `evs` the trace accumulated so far. -/
def reconcileNormal (env : Env) (server : List ExtRRset) (r : RRset)
    (lastUpdateTime : Nat) (evs : List Event) :
    Outcome :=
  if r.status.syncStatus = some FAILED_STATUS then
    { ret := .ok ⟨false, 0⟩, rrset := r, server := server
    , events := evs ++
        [.metricsUpdate (getRRsetName r) r.spec.type
          (r.status.syncStatus.getD "")] }
  else
    match env.listDup with
    | .error e =>
        { ret := .err e.message, rrset := r, server := server
        , events := evs ++ [.listDupQuery] }
    | .ok n =>
        if 1 < n then
          let newStatus : RRsetStatus :=
            { lastUpdateTime := some lastUpdateTime
            , dnsEntryName := some (getRRsetName r)
            , syncStatus := some FAILED_STATUS
            , syncErrorDescription :=
                some "Already existing RRset with the same FQDN" }
          match env.statusPatch with
          | .error e =>
              { ret := .err e.message, rrset := r, server := server
              , events := evs ++ [.listDupQuery, .statusPatchCall] }
          | .ok _ =>
              { ret := .ok ⟨false, 0⟩
              , rrset := { r with status := newStatus }, server := server
              , events := evs ++
                  [.listDupQuery, .statusPatchCall,
                   .metricsUpdate (getRRsetName r) r.spec.type FAILED_STATUS] }
        else
          match createOrUpdateExternalResources env server r with
          | (res, server1, evs2) =>
            let syncFailed : Option String :=
              match res with
              | .error m => some m
              | .ok _ => none
            let changed : Bool :=
              match res with
              | .error _ => false
              | .ok c => c
            let lastUpdateTime1 := if changed then env.now else lastUpdateTime
            match env.ownObject with
            | .error e =>
                if e.isConflict then
                  { ret := .ok ⟨true, 0⟩, rrset := r, server := server1
                  , events := evs ++ [.listDupQuery] ++ evs2 ++
                      [.ownObjectCall] }
                else
                  { ret := .err e.message, rrset := r, server := server1
                  , events := evs ++ [.listDupQuery] ++ evs2 ++
                      [.ownObjectCall] }
            | .ok _ =>
                let syncStatus := syncFailed.elim SUCCEEDED_STATUS
                  (fun _ => FAILED_STATUS)
                let newStatus : RRsetStatus :=
                  { lastUpdateTime := some lastUpdateTime1
                  , dnsEntryName := some (getRRsetName r)
                  , syncStatus := some syncStatus
                  , syncErrorDescription :=
                      match syncFailed with
                      | some m => some m
                      | none => r.status.syncErrorDescription }
                match env.statusPatch with
                | .error e =>
                    { ret := .err e.message, rrset := r, server := server1
                    , events := evs ++ [.listDupQuery] ++ evs2 ++
                        [.ownObjectCall, .statusPatchCall] }
                | .ok _ =>
                    { ret := .ok ⟨false, 0⟩
                    , rrset := { r with status := newStatus }
                    , server := server1
                    , events := evs ++ [.listDupQuery] ++ evs2 ++
                        [.ownObjectCall, .statusPatchCall,
                         .metricsUpdate (getRRsetName r) r.spec.type
                           syncStatus] }

/-- The `Reconcile` method of `RRsetReconciler`: load the object, resolve the
parent zone (removing the finalizer and scheduling a 2-second retry when the
zone is absent), run the finalization state machine when deletion is in
progress (external delete unless the prior status is Failed, then finalizer
removal and metrics retraction), attach the finalizer when absent, and
otherwise continue with `reconcileNormal`. -/
def reconcile (env : Env) (server : List ExtRRset) (r : RRset) : Outcome :=
  match env.rrsetGet with
  | .error e =>
      { ret := if e.isNotFound then .ok ⟨false, 0⟩ else .err e.message
      , rrset := r, server := server, events := [] }
  | .ok _ =>
    let lastUpdateTime := r.status.lastUpdateTime.getD env.now
    match env.zoneGet with
    | .error e =>
        if e.isNotFound then
          if r.hasFinalizer then
            match env.updateFinalizerRemove with
            | .error e2 =>
                { ret := .err e2.message, rrset := r, server := server
                , events := [.removeFinalizerUpdate] }
            | .ok _ =>
                { ret := .ok ⟨false, 2⟩
                , rrset := { r with hasFinalizer := false }, server := server
                , events := [.removeFinalizerUpdate, .metricsRemove] }
          else
            { ret := .ok ⟨false, 2⟩, rrset := r, server := server
            , events := [] }
        else
          { ret := .err e.message, rrset := r, server := server, events := [] }
    | .ok _ =>
        if r.deletionTimestamp = none then
          if r.hasFinalizer then
            reconcileNormal env server r lastUpdateTime []
          else
            match env.updateFinalizerAdd with
            | .error e =>
                { ret := .err e.message, rrset := r, server := server
                , events := [.addFinalizer] }
            | .ok _ =>
                reconcileNormal env server { r with hasFinalizer := true }
                  env.now [.addFinalizer]
        else
          if r.hasFinalizer then
            if r.status.syncStatus = some FAILED_STATUS then
              match env.updateFinalizerRemove with
              | .error e =>
                  { ret := .err e.message, rrset := r, server := server
                  , events := [.removeFinalizerUpdate] }
              | .ok _ =>
                  { ret := .ok ⟨false, 0⟩
                  , rrset := { r with hasFinalizer := false }
                  , server := server
                  , events := [.removeFinalizerUpdate, .metricsRemove] }
            else
              match deleteExternalResources env server r with
              | (.error m, evs) =>
                  { ret := .err m, rrset := r, server := server
                  , events := evs }
              | (.ok server1, evs) =>
                  match env.updateFinalizerRemove with
                  | .error e =>
                      { ret := .err e.message, rrset := r, server := server1
                      , events := evs ++ [.removeFinalizerUpdate] }
                  | .ok _ =>
                      { ret := .ok ⟨false, 0⟩
                      , rrset := { r with hasFinalizer := false }
                      , server := server1
                      , events := evs ++
                          [.removeFinalizerUpdate, .metricsRemove] }
          else
            { ret := .ok ⟨false, 0⟩, rrset := r, server := server
            , events := [] }

/-- The derived uniqueness-index key of `SetupWithManager`'s `IndexField`
callback: the key `getRRsetName(rrset) + "/" + rrset.Spec.Type` when the sync
status is unset or `Succeeded`, and the empty string otherwise. -/
def indexKeyFor (r : RRset) : String :=
  if r.status.syncStatus = none ∨ r.status.syncStatus = some SUCCEEDED_STATUS
  then getRRsetName r ++ "/" ++ r.spec.type
  else ""

/-- A sample spec: the `www` A record of the end-to-end scenario. -/
def specA : RRsetSpec :=
  { zoneRefName := "example.com", type := "A", ttl := 300
  , records := ["10.0.0.1"], comment := none }

/-- An empty status sub-object (freshly created object). -/
def statusNone : RRsetStatus :=
  { lastUpdateTime := none, dnsEntryName := none
  , syncStatus := none, syncErrorDescription := none }

/-- A prior `Failed` status. -/
def statusFailedPrior : RRsetStatus :=
  { lastUpdateTime := some 50, dnsEntryName := some "www.example.com."
  , syncStatus := some FAILED_STATUS
  , syncErrorDescription := some "Already existing RRset with the same FQDN" }

/-- A prior `Succeeded` status. -/
def statusSucceededPrior : RRsetStatus :=
  { lastUpdateTime := some 50, dnsEntryName := some "www.example.com."
  , syncStatus := some SUCCEEDED_STATUS, syncErrorDescription := none }

/-- A sample RRset object with the finalizer attached and no deletion in
progress. -/
def rrA : RRset :=
  { name := "www", nspace := "default", spec := specA, status := statusNone
  , hasFinalizer := true, deletionTimestamp := none }

/-- An environment in which every external call succeeds, the uniqueness
query finds a single claimant, and the clock reads 100. -/
def envAllOk : Env :=
  { now := 100, rrsetGet := .ok (), zoneGet := .ok ()
  , updateFinalizerAdd := .ok (), updateFinalizerRemove := .ok ()
  , listDup := .ok 1, recordsGet := .ok (), changeResult := .ok ()
  , deleteResult := .ok (), ownObject := .ok (), statusPatch := .ok () }

/-! Helper lemmas -/

/-- A string containing a slash separator is never empty. -/
lemma append_slash_ne_empty (a b : String) : a ++ "/" ++ b ≠ "" := by
  intro h
  have h2 := congrArg String.length h
  rw [String.length_append, String.length_append] at h2
  have h3 : ("/" : String).length = 1 := rfl
  have h4 : ("" : String).length = 0 := rfl
  omega

/-- The desired record-set is always identical to the external record the
server holds right after a successful apply of that same record-set. -/
lemma identical_recordOfSpec (r : RRset) :
    rrsetIsIdenticalToExternalRRset r (recordOfSpec r) = true := by
  rcases hc : r.spec.comment with _ | c <;>
    simp [rrsetIsIdenticalToExternalRRset, recordOfSpec, hc]

/-- The filtering loop and diff ignore the status sub-object. -/
lemma findsIdentical_setStatus (server : List ExtRRset) (r : RRset)
    (s : RRsetStatus) :
    findsIdentical server { r with status := s } = findsIdentical server r :=
  rfl

/-- Right after a successful apply, the fetched candidate is found and is
identical to the desired record-set, whatever the status sub-object now
says. -/
lemma findsIdentical_serverApply_status (server : List ExtRRset) (r : RRset)
    (s : RRsetStatus) :
    findsIdentical (serverApply server r) { r with status := s } = true := by
  rw [findsIdentical_setStatus]
  unfold findsIdentical
  have hf : syncFind (serverApply server r) r = some (recordOfSpec r) := by
    unfold syncFind serverApply
    rw [List.find?_cons_of_pos]
    simp [recordOfSpec]
  rw [hf]
  exact identical_recordOfSpec r

/-- Behaviour of `createOrUpdateExternalResources` when the fetch fails with an error other
than NotFound: the error is returned and no apply happens. -/
lemma createOrUpdate_fetch_failed (env : Env) (server : List ExtRRset)
    (r : RRset) (e : KubeErr)
    (hrg : env.recordsGet = Except.error e) (hnf : e.isNotFound = false) :
    createOrUpdateExternalResources env server r =
      (Except.error e.message, server, [Event.pdnsGet]) := by
  simp [createOrUpdateExternalResources, hrg, hnf]

/-- Behaviour of `createOrUpdateExternalResources` when an identical record already exists:
no apply call, no server change, `changed = false`. -/
lemma createOrUpdate_noop (env : Env) (server : List ExtRRset) (r : RRset)
    (hrg : env.recordsGet = Except.ok ())
    (hid : findsIdentical server r = true) :
    createOrUpdateExternalResources env server r =
      (Except.ok false, server, [Event.pdnsGet]) := by
  rcases hf : syncFind server r with _ | fr
  · unfold findsIdentical at hid
    rw [hf] at hid
    simp at hid
  · have hfr : rrsetIsIdenticalToExternalRRset r fr = true := by
      unfold findsIdentical at hid
      rw [hf] at hid
      exact hid
    simp [createOrUpdateExternalResources, hrg, hf, hfr]

/-- Behaviour of `createOrUpdateExternalResources` when no identical record exists and the
apply call succeeds: the record is applied and `changed = true`. -/
lemma createOrUpdate_applied (env : Env) (server : List ExtRRset) (r : RRset)
    (hrg : env.recordsGet = Except.ok ())
    (hid : findsIdentical server r = false)
    (hch : env.changeResult = Except.ok ()) :
    createOrUpdateExternalResources env server r =
      (Except.ok true, serverApply server r,
       [Event.pdnsGet, Event.pdnsChange]) := by
  rcases hf : syncFind server r with _ | fr
  · simp [createOrUpdateExternalResources, hrg, hf, hch]
  · have hfr : rrsetIsIdenticalToExternalRRset r fr = false := by
      unfold findsIdentical at hid
      rw [hf] at hid
      exact hid
    simp [createOrUpdateExternalResources, hrg, hf, hfr, hch]

/-- The sync path of `reconcileNormal` when the external sync fails and the
subsequent ownership update and status patch succeed: the status is patched
to `Failed` with the underlying message, `lastUpdateTime` keeps the incoming
value, and the invocation returns success. -/
lemma reconcileNormal_sync_failed (env : Env) (server : List ExtRRset)
    (r : RRset) (lut : Nat) (evs : List Event) (n : Nat) (m : String)
    (server1 : List ExtRRset) (evs2 : List Event)
    (hfail : r.status.syncStatus ≠ some FAILED_STATUS)
    (hlist : env.listDup = Except.ok n) (hn : ¬ 1 < n)
    (hco : createOrUpdateExternalResources env server r =
      (Except.error m, server1, evs2))
    (hown : env.ownObject = Except.ok ())
    (hpatch : env.statusPatch = Except.ok ()) :
    reconcileNormal env server r lut evs =
      { ret := .ok ⟨false, 0⟩
      , rrset := { r with status :=
          { lastUpdateTime := some lut
          , dnsEntryName := some (getRRsetName r)
          , syncStatus := some FAILED_STATUS
          , syncErrorDescription := some m } }
      , server := server1
      , events := evs ++ [Event.listDupQuery] ++ evs2 ++
          [Event.ownObjectCall, Event.statusPatchCall,
           Event.metricsUpdate (getRRsetName r) r.spec.type FAILED_STATUS] }
      := by
  simp [reconcileNormal, hfail, hlist, hn, hco, hown, hpatch]

/-- The sync path of `reconcileNormal` when the diff reports no change: no
apply, `lastUpdateTime` keeps the incoming value, status becomes `Succeeded`
and the error description is left as it was. -/
lemma reconcileNormal_sync_nochange (env : Env) (server : List ExtRRset)
    (r : RRset) (lut : Nat) (evs : List Event) (n : Nat)
    (server1 : List ExtRRset) (evs2 : List Event)
    (hfail : r.status.syncStatus ≠ some FAILED_STATUS)
    (hlist : env.listDup = Except.ok n) (hn : ¬ 1 < n)
    (hco : createOrUpdateExternalResources env server r =
      (Except.ok false, server1, evs2))
    (hown : env.ownObject = Except.ok ())
    (hpatch : env.statusPatch = Except.ok ()) :
    reconcileNormal env server r lut evs =
      { ret := .ok ⟨false, 0⟩
      , rrset := { r with status :=
          { lastUpdateTime := some lut
          , dnsEntryName := some (getRRsetName r)
          , syncStatus := some SUCCEEDED_STATUS
          , syncErrorDescription := r.status.syncErrorDescription } }
      , server := server1
      , events := evs ++ [Event.listDupQuery] ++ evs2 ++
          [Event.ownObjectCall, Event.statusPatchCall,
           Event.metricsUpdate (getRRsetName r) r.spec.type
             SUCCEEDED_STATUS] } := by
  simp [reconcileNormal, hfail, hlist, hn, hco, hown, hpatch]

/-- The sync path of `reconcileNormal` when the diff reports a change and the
apply succeeds: `lastUpdateTime` is refreshed to the current time and status
becomes `Succeeded`. -/
lemma reconcileNormal_sync_changed (env : Env) (server : List ExtRRset)
    (r : RRset) (lut : Nat) (evs : List Event) (n : Nat)
    (server1 : List ExtRRset) (evs2 : List Event)
    (hfail : r.status.syncStatus ≠ some FAILED_STATUS)
    (hlist : env.listDup = Except.ok n) (hn : ¬ 1 < n)
    (hco : createOrUpdateExternalResources env server r =
      (Except.ok true, server1, evs2))
    (hown : env.ownObject = Except.ok ())
    (hpatch : env.statusPatch = Except.ok ()) :
    reconcileNormal env server r lut evs =
      { ret := .ok ⟨false, 0⟩
      , rrset := { r with status :=
          { lastUpdateTime := some env.now
          , dnsEntryName := some (getRRsetName r)
          , syncStatus := some SUCCEEDED_STATUS
          , syncErrorDescription := r.status.syncErrorDescription } }
      , server := server1
      , events := evs ++ [Event.listDupQuery] ++ evs2 ++
          [Event.ownObjectCall, Event.statusPatchCall,
           Event.metricsUpdate (getRRsetName r) r.spec.type
             SUCCEEDED_STATUS] } := by
  simp [reconcileNormal, hfail, hlist, hn, hco, hown, hpatch]

/-- With the finalizer present and no deletion in progress, `Reconcile`
reduces to the normal path, with `lastUpdateTime` taken from the prior status
when set. -/
lemma reconcile_to_normal (env : Env) (server : List ExtRRset) (r : RRset)
    (hget : env.rrsetGet = Except.ok ())
    (hzone : env.zoneGet = Except.ok ())
    (hdel : r.deletionTimestamp = none)
    (hfin : r.hasFinalizer = true) :
    reconcile env server r =
      reconcileNormal env server r (r.status.lastUpdateTime.getD env.now)
        [] := by
  simp [reconcile, hget, hzone, hdel, hfin]

/-- The function `reconcileNormal` never changes the finalizer of the persisted object. -/
lemma reconcileNormal_hasFinalizer (env : Env) (server : List ExtRRset)
    (r : RRset) (lut : Nat) (evs : List Event) :
    (reconcileNormal env server r lut evs).rrset.hasFinalizer =
      r.hasFinalizer := by
  by_cases hfail : r.status.syncStatus = some FAILED_STATUS
  · simp [reconcileNormal, hfail]
  · rcases hl : env.listDup with e | n
    · simp [reconcileNormal, hfail, hl]
    · by_cases h1 : 1 < n
      · rcases hp : env.statusPatch with e2 | u2 <;>
          simp [reconcileNormal, hfail, hl, h1, hp]
      · rcases hco : createOrUpdateExternalResources env server r with
          ⟨res, s1, evs2⟩
        rcases ho : env.ownObject with e3 | u3
        · rcases hc : e3.isConflict <;>
            simp [reconcileNormal, hfail, hl, h1, hco, ho, hc]
        · rcases hp : env.statusPatch with e4 | u4 <;>
            rcases res with m | c <;>
              simp [reconcileNormal, hfail, hl, h1, hco, ho, hp]

/-- Every event accumulated before entering `reconcileNormal` stays in the
final trace. -/
lemma reconcileNormal_events_mono (env : Env) (server : List ExtRRset)
    (r : RRset) (lut : Nat) (evs : List Event) (x : Event) (hx : x ∈ evs) :
    x ∈ (reconcileNormal env server r lut evs).events := by
  by_cases hfail : r.status.syncStatus = some FAILED_STATUS
  · simp [reconcileNormal, hfail, hx]
  · rcases hl : env.listDup with e | n
    · simp [reconcileNormal, hfail, hl, hx]
    · by_cases h1 : 1 < n
      · rcases hp : env.statusPatch with e2 | u2 <;>
          simp [reconcileNormal, hfail, hl, h1, hp, hx]
      · rcases hco : createOrUpdateExternalResources env server r with
          ⟨res, s1, evs2⟩
        rcases ho : env.ownObject with e3 | u3
        · rcases hc : e3.isConflict <;>
            simp [reconcileNormal, hfail, hl, h1, hco, ho, hc, hx]
        · rcases hp : env.statusPatch with e4 | u4 <;>
            rcases res with m | c <;>
              simp [reconcileNormal, hfail, hl, h1, hco, ho, hp, hx]

/-- Whenever the prior status is not `Failed`, `reconcileNormal` performs the
uniqueness-index query. -/
lemma reconcileNormal_listDup_event (env : Env) (server : List ExtRRset)
    (r : RRset) (lut : Nat) (evs : List Event)
    (hfail : r.status.syncStatus ≠ some FAILED_STATUS) :
    Event.listDupQuery ∈ (reconcileNormal env server r lut evs).events := by
  rcases hl : env.listDup with e | n
  · simp [reconcileNormal, hfail, hl]
  · by_cases h1 : 1 < n
    · rcases hp : env.statusPatch with e2 | u2 <;>
        simp [reconcileNormal, hfail, hl, h1, hp]
    · rcases hco : createOrUpdateExternalResources env server r with
        ⟨res, s1, evs2⟩
      rcases ho : env.ownObject with e3 | u3
      · rcases hc : e3.isConflict <;>
          simp [reconcileNormal, hfail, hl, h1, hco, ho, hc]
      · rcases hp : env.statusPatch with e4 | u4 <;>
          rcases res with m | c <;>
            simp [reconcileNormal, hfail, hl, h1, hco, ho, hp]

/-! Claims -/

/-- C7: when the parent zone lookup returns NotFound, the reconcile removes
the cleanup marker if present (with no external teardown call), removes the
observability entry, and returns success with a 2-second requeue delay. -/
theorem c7_zone_notfound_recovery (env : Env) (server : List ExtRRset)
    (r : RRset) (hget : env.rrsetGet = Except.ok ())
    (hzone : env.zoneGet = Except.error KubeErr.notFound) :
    (r.hasFinalizer = true → env.updateFinalizerRemove = Except.ok () →
      (reconcile env server r).ret = RetVal.ok ⟨false, 2⟩ ∧
      (reconcile env server r).rrset.hasFinalizer = false ∧
      (reconcile env server r).events =
        [Event.removeFinalizerUpdate, Event.metricsRemove]) ∧
    (r.hasFinalizer = false →
      (reconcile env server r).ret = RetVal.ok ⟨false, 2⟩ ∧
      (reconcile env server r).events = []) := by
  constructor
  · intro hfin hupd
    simp [reconcile, hget, hzone, hfin, hupd, KubeErr.isNotFound]
  · intro hfin
    simp [reconcile, hget, hzone, hfin, KubeErr.isNotFound]

/-- C7 witness: the theorem evaluated on a concrete deleting-less object with
the finalizer attached and a NotFound parent zone. -/
theorem c7_witness :
    (reconcile { envAllOk with zoneGet := Except.error KubeErr.notFound } []
      rrA).ret = RetVal.ok ⟨false, 2⟩ ∧
    (reconcile { envAllOk with zoneGet := Except.error KubeErr.notFound } []
      rrA).rrset.hasFinalizer = false ∧
    (reconcile { envAllOk with zoneGet := Except.error KubeErr.notFound } []
      rrA).events = [Event.removeFinalizerUpdate, Event.metricsRemove] :=
  (c7_zone_notfound_recovery
    { envAllOk with zoneGet := Except.error KubeErr.notFound } [] rrA
    rfl rfl).1 rfl rfl

/-- C9: the derived uniqueness-index key is non-empty exactly when the sync
status is unset or `Succeeded`; a `Failed` object contributes no key. -/
theorem c9_index_key_iff (r : RRset) :
    (indexKeyFor r ≠ "" ↔
      (r.status.syncStatus = none ∨
       r.status.syncStatus = some SUCCEEDED_STATUS)) ∧
    (r.status.syncStatus = some FAILED_STATUS → indexKeyFor r = "") := by
  constructor
  · constructor
    · intro hkey
      by_contra h
      rw [indexKeyFor, if_neg h] at hkey
      exact hkey rfl
    · intro h
      rw [indexKeyFor, if_pos h]
      exact append_slash_ne_empty _ _
  · intro hf
    rw [indexKeyFor, if_neg]
    rintro (h | h) <;> rw [hf] at h <;> simp [SUCCEEDED_STATUS] at h
    exact absurd h.symm (by decide)

/-- C9 witness: a `Failed` object yields the empty key, while an object with
unset status yields a non-empty key. -/
theorem c9_witness :
    indexKeyFor { rrA with status := statusFailedPrior } = "" ∧
    indexKeyFor rrA ≠ "" :=
  ⟨(c9_index_key_iff { rrA with status := statusFailedPrior }).2 rfl,
   (c9_index_key_iff rrA).1.mpr (Or.inl rfl)⟩

/-- C8: once deletion is in progress (non-zero deletion timestamp), no
reconcile invocation re-attaches the finalizer, queries the uniqueness index,
touches the external record-set via fetch or apply, updates ownership, or
patches status — whatever the environment does, only finalization calls can
appear in the trace. -/
theorem c8_deletion_only_finalization (env : Env) (server : List ExtRRset)
    (r : RRset) (d : Nat) (hdel : r.deletionTimestamp = some d) :
    Event.addFinalizer ∉ (reconcile env server r).events ∧
    Event.listDupQuery ∉ (reconcile env server r).events ∧
    Event.pdnsGet ∉ (reconcile env server r).events ∧
    Event.pdnsChange ∉ (reconcile env server r).events ∧
    Event.ownObjectCall ∉ (reconcile env server r).events ∧
    Event.statusPatchCall ∉ (reconcile env server r).events := by
  rcases hget : env.rrsetGet with eg | ug
  · simp [reconcile, hget]
  · rcases hzone : env.zoneGet with ez | uz
    · rcases hnfz : ez.isNotFound
      · simp [reconcile, hget, hzone, hnfz]
      · by_cases hfin : r.hasFinalizer
        · rcases hupd : env.updateFinalizerRemove with e2 | u2 <;>
            simp [reconcile, hget, hzone, hnfz, hfin, hupd]
        · simp [reconcile, hget, hzone, hnfz, hfin]
    · by_cases hfin : r.hasFinalizer
      · by_cases hfail : r.status.syncStatus = some FAILED_STATUS
        · rcases hupd : env.updateFinalizerRemove with e2 | u2 <;>
            simp [reconcile, hget, hzone, hdel, hfin, hfail, hupd]
        · rcases hdr : env.deleteResult with e3 | u3 <;>
            rcases hupd : env.updateFinalizerRemove with e2 | u2 <;>
              simp [reconcile, deleteExternalResources, hget, hzone, hdel,
                hfin, hfail, hdr, hupd]
      · simp [reconcile, hget, hzone, hdel, hfin]

/-- C8 witness: the theorem evaluated on a concrete object under deletion with
a prior `Succeeded` status, in the all-success environment. -/
theorem c8_witness :
    Event.addFinalizer ∉ (reconcile envAllOk []
      { rrA with status := statusSucceededPrior,
                 deletionTimestamp := some 7 }).events ∧
    Event.listDupQuery ∉ (reconcile envAllOk []
      { rrA with status := statusSucceededPrior,
                 deletionTimestamp := some 7 }).events ∧
    Event.pdnsGet ∉ (reconcile envAllOk []
      { rrA with status := statusSucceededPrior,
                 deletionTimestamp := some 7 }).events ∧
    Event.pdnsChange ∉ (reconcile envAllOk []
      { rrA with status := statusSucceededPrior,
                 deletionTimestamp := some 7 }).events ∧
    Event.ownObjectCall ∉ (reconcile envAllOk []
      { rrA with status := statusSucceededPrior,
                 deletionTimestamp := some 7 }).events ∧
    Event.statusPatchCall ∉ (reconcile envAllOk []
      { rrA with status := statusSucceededPrior,
                 deletionTimestamp := some 7 }).events :=
  c8_deletion_only_finalization envAllOk []
    { rrA with status := statusSucceededPrior, deletionTimestamp := some 7 }
    7 rfl

/-- C2: finalization ordering — with deletion requested and the finalizer
present (and the parent zone resolvable), a prior non-`Failed` status makes
the external delete call happen before the finalizer-removal update, a failed
external delete blocks finalizer removal and returns an error, and a prior
`Failed` status skips the external delete entirely. -/
theorem c2_finalization_ordering (env : Env) (server : List ExtRRset)
    (r : RRset) (d : Nat)
    (hget : env.rrsetGet = Except.ok ())
    (hzone : env.zoneGet = Except.ok ())
    (hdel : r.deletionTimestamp = some d)
    (hfin : r.hasFinalizer = true) :
    (r.status.syncStatus ≠ some FAILED_STATUS →
      (env.deleteResult = Except.ok () →
        env.updateFinalizerRemove = Except.ok () →
        (reconcile env server r).events =
          [Event.pdnsDelete, Event.removeFinalizerUpdate,
           Event.metricsRemove] ∧
        (reconcile env server r).rrset.hasFinalizer = false ∧
        (reconcile env server r).ret = RetVal.ok ⟨false, 0⟩) ∧
      (∀ e : KubeErr, env.deleteResult = Except.error e →
        (reconcile env server r).ret = RetVal.err e.message ∧
        (reconcile env server r).rrset.hasFinalizer = true ∧
        Event.removeFinalizerUpdate ∉ (reconcile env server r).events)) ∧
    (r.status.syncStatus = some FAILED_STATUS →
      Event.pdnsDelete ∉ (reconcile env server r).events ∧
      (env.updateFinalizerRemove = Except.ok () →
        (reconcile env server r).rrset.hasFinalizer = false ∧
        (reconcile env server r).ret = RetVal.ok ⟨false, 0⟩)) := by
  refine ⟨fun hfail => ⟨fun hdr hupd => ?_, fun e hdr => ?_⟩,
    fun hfail => ⟨?_, fun hupd => ?_⟩⟩
  · simp [reconcile, deleteExternalResources, hget, hzone, hdel, hfin, hfail,
      hdr, hupd]
  · simp [reconcile, deleteExternalResources, hget, hzone, hdel, hfin, hfail,
      hdr]
  · rcases hupd : env.updateFinalizerRemove with e2 | u2 <;>
      simp [reconcile, hget, hzone, hdel, hfin, hfail, hupd]
  · simp [reconcile, hget, hzone, hdel, hfin, hfail, hupd]

/-- C2 witness: deleting an object with a prior `Succeeded` status issues the
external delete before the finalizer removal, and deleting one with a prior
`Failed` status issues no external delete. -/
theorem c2_witness :
    (reconcile envAllOk []
      { rrA with status := statusSucceededPrior,
                 deletionTimestamp := some 7 }).events =
      [Event.pdnsDelete, Event.removeFinalizerUpdate, Event.metricsRemove] ∧
    Event.pdnsDelete ∉ (reconcile envAllOk []
      { rrA with status := statusFailedPrior,
                 deletionTimestamp := some 7 }).events :=
  ⟨((c2_finalization_ordering envAllOk []
      { rrA with status := statusSucceededPrior, deletionTimestamp := some 7 }
      7 rfl rfl rfl rfl).1 (by decide)).1 rfl rfl |>.1,
   ((c2_finalization_ordering envAllOk []
      { rrA with status := statusFailedPrior, deletionTimestamp := some 7 }
      7 rfl rfl rfl rfl).2 rfl).1⟩

/-- C3: when the uniqueness-index query returns more than one claimant, the
status is patched to `Failed` with the fixed diagnostic, the observability
entry is published, and the invocation returns success with no requeue and
without any external DNS call. -/
theorem c3_duplicate_terminal (env : Env) (server : List ExtRRset) (r : RRset)
    (n : Nat)
    (hget : env.rrsetGet = Except.ok ())
    (hzone : env.zoneGet = Except.ok ())
    (hdel : r.deletionTimestamp = none)
    (hfinok : r.hasFinalizer = true ∨ env.updateFinalizerAdd = Except.ok ())
    (hfail : r.status.syncStatus ≠ some FAILED_STATUS)
    (hlist : env.listDup = Except.ok n) (hn : 1 < n)
    (hpatch : env.statusPatch = Except.ok ()) :
    (reconcile env server r).ret = RetVal.ok ⟨false, 0⟩ ∧
    (reconcile env server r).rrset.status.syncStatus = some FAILED_STATUS ∧
    (reconcile env server r).rrset.status.syncErrorDescription =
      some "Already existing RRset with the same FQDN" ∧
    Event.metricsUpdate (getRRsetName r) r.spec.type FAILED_STATUS ∈
      (reconcile env server r).events ∧
    Event.pdnsGet ∉ (reconcile env server r).events ∧
    Event.pdnsChange ∉ (reconcile env server r).events ∧
    Event.pdnsDelete ∉ (reconcile env server r).events ∧
    Event.ownObjectCall ∉ (reconcile env server r).events := by
  by_cases hfin : r.hasFinalizer
  · simp [reconcile, reconcileNormal, getRRsetName, hget, hzone, hdel, hfin,
      hfail, hlist, hn, hpatch]
  · have hupd : env.updateFinalizerAdd = Except.ok () := by
      rcases hfinok with h | h
      · exact absurd h hfin
      · exact h
    simp [reconcile, reconcileNormal, getRRsetName, hget, hzone, hdel, hfin,
      hupd, hfail, hlist, hn, hpatch]

/-- C3 witness: the theorem evaluated with a concrete two-claimant index
answer. -/
theorem c3_witness :
    (reconcile { envAllOk with listDup := Except.ok 2 } [] rrA).ret =
      RetVal.ok ⟨false, 0⟩ ∧
    (reconcile { envAllOk with listDup := Except.ok 2 } []
      rrA).rrset.status.syncStatus = some FAILED_STATUS ∧
    (reconcile { envAllOk with listDup := Except.ok 2 } []
      rrA).rrset.status.syncErrorDescription =
      some "Already existing RRset with the same FQDN" ∧
    Event.metricsUpdate (getRRsetName rrA) rrA.spec.type FAILED_STATUS ∈
      (reconcile { envAllOk with listDup := Except.ok 2 } [] rrA).events ∧
    Event.pdnsGet ∉
      (reconcile { envAllOk with listDup := Except.ok 2 } [] rrA).events ∧
    Event.pdnsChange ∉
      (reconcile { envAllOk with listDup := Except.ok 2 } [] rrA).events ∧
    Event.pdnsDelete ∉
      (reconcile { envAllOk with listDup := Except.ok 2 } [] rrA).events ∧
    Event.ownObjectCall ∉
      (reconcile { envAllOk with listDup := Except.ok 2 } [] rrA).events :=
  c3_duplicate_terminal { envAllOk with listDup := Except.ok 2 } [] rrA 2
    rfl rfl rfl (Or.inl rfl) (by decide) rfl (by decide) rfl

/-- C1 counterexample: with the external apply call failing
(`changeResult = error "pdns api down"`) and every Kubernetes write
succeeding, the reconcile sets the status to `Failed` with the underlying
message yet returns success (a nil error) — it does not return an error to
the host scheduler as the claim states. -/
theorem c1_counterexample :
    (reconcile { envAllOk with
        changeResult := Except.error (KubeErr.other "pdns api down") } []
      rrA).ret = RetVal.ok ⟨false, 0⟩ ∧
    (reconcile { envAllOk with
        changeResult := Except.error (KubeErr.other "pdns api down") } []
      rrA).rrset.status.syncStatus = some FAILED_STATUS ∧
    (reconcile { envAllOk with
        changeResult := Except.error (KubeErr.other "pdns api down") } []
      rrA).rrset.status.syncErrorDescription = some "pdns api down" := by
  decide

/-- C5 counterexample: with the cleanup marker absent and every call
succeeding, the invocation attaches the marker and then continues in the same
invocation to the duplicate check and the external sync — it does not return
immediately after persisting the marker as the claim states. -/
theorem c5_counterexample :
    Event.addFinalizer ∈
      (reconcile envAllOk [] { rrA with hasFinalizer := false }).events ∧
    Event.listDupQuery ∈
      (reconcile envAllOk [] { rrA with hasFinalizer := false }).events ∧
    Event.pdnsChange ∈
      (reconcile envAllOk [] { rrA with hasFinalizer := false }).events := by
  decide

/-- C6 counterexample: an optimistic-concurrency conflict on the
finalizer-attach update is returned as an error to the host scheduler
(backoff retry), not as an immediate-requeue success as the claim states for
every engine write. -/
theorem c6_counterexample :
    (reconcile { envAllOk with
        updateFinalizerAdd := Except.error KubeErr.conflict } []
      { rrA with hasFinalizer := false }).ret = RetVal.err "conflict" := by
  decide

/-- C1 (amended): when the external apply or fetch call fails, the status is
set to `Failed` with the underlying error message, but the reconcile
invocation returns success (a nil error, no requeue) rather than an error to
the host scheduler, provided the ownership update and status patch go
through. -/
theorem c1_sync_failure_status (env : Env) (server : List ExtRRset)
    (r : RRset) (n : Nat) (m : String) (evs2 : List Event)
    (hget : env.rrsetGet = Except.ok ())
    (hzone : env.zoneGet = Except.ok ())
    (hdel : r.deletionTimestamp = none)
    (hfin : r.hasFinalizer = true)
    (hfail : r.status.syncStatus ≠ some FAILED_STATUS)
    (hlist : env.listDup = Except.ok n) (hn : n ≤ 1)
    (hco : createOrUpdateExternalResources env server r =
      (Except.error m, server, evs2))
    (hown : env.ownObject = Except.ok ())
    (hpatch : env.statusPatch = Except.ok ()) :
    (reconcile env server r).ret = RetVal.ok ⟨false, 0⟩ ∧
    (reconcile env server r).rrset.status.syncStatus = some FAILED_STATUS ∧
    (reconcile env server r).rrset.status.syncErrorDescription = some m := by
  have hn' : ¬ 1 < n := by omega
  rw [reconcile_to_normal env server r hget hzone hdel hfin,
    reconcileNormal_sync_failed env server r _ [] n m server evs2 hfail hlist
      hn' hco hown hpatch]
  simp

/-- C1 witness: the amended theorem evaluated with a concrete failing apply
call. -/
theorem c1_witness :
    (reconcile { envAllOk with
        changeResult := Except.error (KubeErr.other "boom") } [] rrA).ret =
      RetVal.ok ⟨false, 0⟩ ∧
    (reconcile { envAllOk with
        changeResult := Except.error (KubeErr.other "boom") } []
      rrA).rrset.status.syncStatus = some FAILED_STATUS ∧
    (reconcile { envAllOk with
        changeResult := Except.error (KubeErr.other "boom") } []
      rrA).rrset.status.syncErrorDescription = some "boom" :=
  c1_sync_failure_status
    { envAllOk with changeResult := Except.error (KubeErr.other "boom") }
    [] rrA 1 "boom" [Event.pdnsGet, Event.pdnsChange] rfl rfl rfl rfl
    (by decide) rfl (by decide) rfl rfl rfl

/-- C6 (amended): an optimistic-concurrency conflict on the ownership update
is retried via an immediate requeue; a conflict on the finalizer-attach
update, on either finalizer-detach update (the zone-NotFound path and the
deletion path), or on the status patch is returned as an error to the host
scheduler (backoff retry); in all five cases nothing is persisted, so the
conflict is never surfaced as a `Failed` sync status. -/
theorem c6_conflict_handling (env : Env) (server : List ExtRRset) (r : RRset)
    (n : Nat)
    (hget : env.rrsetGet = Except.ok ())
    (hfail : r.status.syncStatus ≠ some FAILED_STATUS)
    (hlist : env.listDup = Except.ok n) (hn : n ≤ 1) :
    (env.zoneGet = Except.ok () → r.deletionTimestamp = none →
      r.hasFinalizer = true → env.ownObject = Except.error KubeErr.conflict →
      (reconcile env server r).ret = RetVal.ok ⟨true, 0⟩ ∧
      (reconcile env server r).rrset = r) ∧
    (env.zoneGet = Except.ok () → r.deletionTimestamp = none →
      r.hasFinalizer = false →
      env.updateFinalizerAdd = Except.error KubeErr.conflict →
      (reconcile env server r).ret = RetVal.err "conflict" ∧
      (reconcile env server r).rrset = r) ∧
    (env.zoneGet = Except.ok () → r.deletionTimestamp = none →
      r.hasFinalizer = true → env.ownObject = Except.ok () →
      env.statusPatch = Except.error KubeErr.conflict →
      (reconcile env server r).ret = RetVal.err "conflict" ∧
      (reconcile env server r).rrset = r) ∧
    (env.zoneGet = Except.error KubeErr.notFound → r.hasFinalizer = true →
      env.updateFinalizerRemove = Except.error KubeErr.conflict →
      (reconcile env server r).ret = RetVal.err "conflict" ∧
      (reconcile env server r).rrset = r) ∧
    (∀ d : Nat, env.zoneGet = Except.ok () →
      r.deletionTimestamp = some d → r.hasFinalizer = true →
      env.deleteResult = Except.ok () →
      env.updateFinalizerRemove = Except.error KubeErr.conflict →
      (reconcile env server r).ret = RetVal.err "conflict" ∧
      (reconcile env server r).rrset = r) := by
  have hn' : ¬ 1 < n := by omega
  refine ⟨fun hzone hdel hfin hown => ?_, fun hzone hdel hfin hupd => ?_,
    fun hzone hdel hfin hown hpatch => ?_, fun hzone hfin hupd => ?_,
    fun d hzone hdel hfin hdr hupd => ?_⟩
  · rw [reconcile_to_normal env server r hget hzone hdel hfin]
    rcases hco : createOrUpdateExternalResources env server r with
      ⟨res, s1, evs2⟩
    simp [reconcileNormal, hfail, hlist, hn', hco, hown, KubeErr.isConflict]
  · simp [reconcile, hget, hzone, hdel, hfin, hupd, KubeErr.message]
  · rw [reconcile_to_normal env server r hget hzone hdel hfin]
    rcases hco : createOrUpdateExternalResources env server r with
      ⟨res, s1, evs2⟩
    rcases res with m | c <;>
      simp [reconcileNormal, hfail, hlist, hn', hco, hown, hpatch,
        KubeErr.message]
  · simp [reconcile, hget, hzone, hfin, hupd, KubeErr.isNotFound,
      KubeErr.message]
  · simp [reconcile, deleteExternalResources, hget, hzone, hdel, hfin, hfail,
      hdr, hupd, KubeErr.message]

/-- C6 witness: the amended theorem evaluated at five concrete environments,
one conflicting write each — ownership update, finalizer attach, status
patch, finalizer detach on the zone-NotFound path, and finalizer detach on
the deletion path. -/
theorem c6_witness :
    (reconcile { envAllOk with ownObject := Except.error KubeErr.conflict }
      [] rrA).ret = RetVal.ok ⟨true, 0⟩ ∧
    (reconcile
      { envAllOk with updateFinalizerAdd := Except.error KubeErr.conflict }
      [] { rrA with hasFinalizer := false }).ret = RetVal.err "conflict" ∧
    (reconcile { envAllOk with statusPatch := Except.error KubeErr.conflict }
      [] rrA).ret = RetVal.err "conflict" ∧
    (reconcile
      { envAllOk with zoneGet := Except.error KubeErr.notFound,
                      updateFinalizerRemove := Except.error KubeErr.conflict }
      [] rrA).ret = RetVal.err "conflict" ∧
    (reconcile
      { envAllOk with
          updateFinalizerRemove := Except.error KubeErr.conflict } []
      { rrA with status := statusSucceededPrior,
                 deletionTimestamp := some 7 }).ret =
      RetVal.err "conflict" :=
  ⟨((c6_conflict_handling
      { envAllOk with ownObject := Except.error KubeErr.conflict } [] rrA 1
      rfl (by decide) rfl (by decide)).1 rfl rfl rfl rfl).1,
   ((c6_conflict_handling
      { envAllOk with updateFinalizerAdd := Except.error KubeErr.conflict }
      [] { rrA with hasFinalizer := false } 1 rfl (by decide) rfl
      (by decide)).2.1 rfl rfl rfl rfl).1,
   ((c6_conflict_handling
      { envAllOk with statusPatch := Except.error KubeErr.conflict } [] rrA 1
      rfl (by decide) rfl (by decide)).2.2.1 rfl rfl rfl rfl rfl).1,
   ((c6_conflict_handling
      { envAllOk with zoneGet := Except.error KubeErr.notFound,
                      updateFinalizerRemove := Except.error KubeErr.conflict }
      [] rrA 1 rfl (by decide) rfl (by decide)).2.2.2.1 rfl rfl rfl).1,
   ((c6_conflict_handling
      { envAllOk with
          updateFinalizerRemove := Except.error KubeErr.conflict } []
      { rrA with status := statusSucceededPrior, deletionTimestamp := some 7 }
      1 rfl (by decide) rfl (by decide)).2.2.2.2 7 rfl rfl rfl rfl rfl).1⟩

/-- C5 (amended): with the cleanup marker absent and no deletion in progress,
the engine attaches the marker and persists it, but then continues in the
same invocation instead of returning immediately: with a prior status other
than `Failed` it proceeds to the duplicate check and the rest of the normal
path, while with a prior `Failed` status it republishes the observability
entry and terminates without the duplicate check or the sync. -/
theorem c5_attach_then_continue (env : Env) (server : List ExtRRset)
    (r : RRset)
    (hget : env.rrsetGet = Except.ok ())
    (hzone : env.zoneGet = Except.ok ())
    (hdel : r.deletionTimestamp = none)
    (hfin : r.hasFinalizer = false)
    (hupd : env.updateFinalizerAdd = Except.ok ()) :
    (reconcile env server r).rrset.hasFinalizer = true ∧
    Event.addFinalizer ∈ (reconcile env server r).events ∧
    (r.status.syncStatus ≠ some FAILED_STATUS →
      Event.listDupQuery ∈ (reconcile env server r).events) ∧
    (r.status.syncStatus = some FAILED_STATUS →
      Event.listDupQuery ∉ (reconcile env server r).events ∧
      Event.metricsUpdate (getRRsetName r) r.spec.type FAILED_STATUS ∈
        (reconcile env server r).events ∧
      (reconcile env server r).ret = RetVal.ok ⟨false, 0⟩) := by
  have h2 : reconcile env server r =
      reconcileNormal env server { r with hasFinalizer := true } env.now
        [Event.addFinalizer] := by
    simp [reconcile, hget, hzone, hdel, hfin, hupd]
  rw [h2]
  refine ⟨?_, ?_, ?_, ?_⟩
  · rw [reconcileNormal_hasFinalizer]
  · exact reconcileNormal_events_mono env server _ env.now _ _ (by simp)
  · intro hfail
    exact reconcileNormal_listDup_event env server _ env.now _ hfail
  · intro hfail
    simp [reconcileNormal, hfail]
    rfl

/-- C5 witness: the amended theorem evaluated in the all-success environment,
once with an unset prior status (continues to the duplicate check) and once
with a prior `Failed` status (republishes metrics and stops). -/
theorem c5_witness :
    ((reconcile envAllOk []
        { rrA with hasFinalizer := false }).rrset.hasFinalizer = true ∧
      Event.addFinalizer ∈
        (reconcile envAllOk [] { rrA with hasFinalizer := false }).events ∧
      Event.listDupQuery ∈
        (reconcile envAllOk [] { rrA with hasFinalizer := false }).events) ∧
    (Event.listDupQuery ∉
        (reconcile envAllOk []
          { rrA with hasFinalizer := false,
                     status := statusFailedPrior }).events ∧
      Event.metricsUpdate
          (getRRsetName
            { rrA with hasFinalizer := false, status := statusFailedPrior })
          specA.type FAILED_STATUS ∈
        (reconcile envAllOk []
          { rrA with hasFinalizer := false,
                     status := statusFailedPrior }).events ∧
      (reconcile envAllOk []
        { rrA with hasFinalizer := false,
                   status := statusFailedPrior }).ret =
        RetVal.ok ⟨false, 0⟩) :=
  ⟨⟨(c5_attach_then_continue envAllOk [] { rrA with hasFinalizer := false }
      rfl rfl rfl rfl rfl).1,
    (c5_attach_then_continue envAllOk [] { rrA with hasFinalizer := false }
      rfl rfl rfl rfl rfl).2.1,
    (c5_attach_then_continue envAllOk [] { rrA with hasFinalizer := false }
      rfl rfl rfl rfl rfl).2.2.1 (by decide)⟩,
   (c5_attach_then_continue envAllOk []
      { rrA with hasFinalizer := false, status := statusFailedPrior }
      rfl rfl rfl rfl rfl).2.2.2 rfl⟩

/-- C4: two consecutive reconciles with no intervening external change — the
second invocation issues no apply call, leaves the external record-set
untouched, and preserves `lastUpdateTime` from the prior status. -/
theorem c4_idempotent_second_reconcile (env1 env2 : Env)
    (server : List ExtRRset) (r : RRset) (n1 n2 : Nat)
    (h1get : env1.rrsetGet = Except.ok ())
    (h1zone : env1.zoneGet = Except.ok ())
    (h1list : env1.listDup = Except.ok n1) (h1n : n1 ≤ 1)
    (h1rg : env1.recordsGet = Except.ok ())
    (h1ch : env1.changeResult = Except.ok ())
    (h1own : env1.ownObject = Except.ok ())
    (h1patch : env1.statusPatch = Except.ok ())
    (h2get : env2.rrsetGet = Except.ok ())
    (h2zone : env2.zoneGet = Except.ok ())
    (h2list : env2.listDup = Except.ok n2) (h2n : n2 ≤ 1)
    (h2rg : env2.recordsGet = Except.ok ())
    (h2own : env2.ownObject = Except.ok ())
    (h2patch : env2.statusPatch = Except.ok ())
    (hdel : r.deletionTimestamp = none)
    (hfin : r.hasFinalizer = true)
    (hfail : r.status.syncStatus ≠ some FAILED_STATUS) :
    Event.pdnsChange ∉
      (reconcile env2 (reconcile env1 server r).server
        (reconcile env1 server r).rrset).events ∧
    (reconcile env2 (reconcile env1 server r).server
      (reconcile env1 server r).rrset).server =
      (reconcile env1 server r).server ∧
    (reconcile env2 (reconcile env1 server r).server
      (reconcile env1 server r).rrset).rrset.status.lastUpdateTime =
      (reconcile env1 server r).rrset.status.lastUpdateTime := by
  have h1n' : ¬ 1 < n1 := by omega
  have h2n' : ¬ 1 < n2 := by omega
  rcases hid : findsIdentical server r with _ | _
  · have ho1 : reconcile env1 server r =
        { ret := .ok ⟨false, 0⟩
        , rrset := { r with status :=
            { lastUpdateTime := some env1.now
            , dnsEntryName := some (getRRsetName r)
            , syncStatus := some SUCCEEDED_STATUS
            , syncErrorDescription := r.status.syncErrorDescription } }
        , server := serverApply server r
        , events := [Event.listDupQuery] ++
            [Event.pdnsGet, Event.pdnsChange] ++
            [Event.ownObjectCall, Event.statusPatchCall,
             Event.metricsUpdate (getRRsetName r) r.spec.type
               SUCCEEDED_STATUS] } := by
      rw [reconcile_to_normal env1 server r h1get h1zone hdel hfin,
        reconcileNormal_sync_changed env1 server r _ [] n1
          (serverApply server r) [Event.pdnsGet, Event.pdnsChange] hfail
          h1list h1n' (createOrUpdate_applied env1 server r h1rg hid h1ch)
          h1own h1patch]
      rfl
    rw [ho1]
    dsimp only
    have hid2 : findsIdentical (serverApply server r)
        { r with status :=
            { lastUpdateTime := some env1.now
            , dnsEntryName := some (getRRsetName r)
            , syncStatus := some SUCCEEDED_STATUS
            , syncErrorDescription := r.status.syncErrorDescription } } =
        true := findsIdentical_serverApply_status server r _
    rw [reconcile_to_normal env2 (serverApply server r)
        { r with status :=
            { lastUpdateTime := some env1.now
            , dnsEntryName := some (getRRsetName r)
            , syncStatus := some SUCCEEDED_STATUS
            , syncErrorDescription := r.status.syncErrorDescription } }
        h2get h2zone hdel hfin,
      reconcileNormal_sync_nochange env2 (serverApply server r)
        { r with status :=
            { lastUpdateTime := some env1.now
            , dnsEntryName := some (getRRsetName r)
            , syncStatus := some SUCCEEDED_STATUS
            , syncErrorDescription := r.status.syncErrorDescription } }
        _ [] n2 (serverApply server r) [Event.pdnsGet]
        (by simp [SUCCEEDED_STATUS, FAILED_STATUS]) h2list
        h2n'
        (createOrUpdate_noop env2 (serverApply server r)
          { r with status :=
              { lastUpdateTime := some env1.now
              , dnsEntryName := some (getRRsetName r)
              , syncStatus := some SUCCEEDED_STATUS
              , syncErrorDescription := r.status.syncErrorDescription } }
          h2rg hid2) h2own h2patch]
    simp
  · have ho1 : reconcile env1 server r =
        { ret := .ok ⟨false, 0⟩
        , rrset := { r with status :=
            { lastUpdateTime :=
                some (r.status.lastUpdateTime.getD env1.now)
            , dnsEntryName := some (getRRsetName r)
            , syncStatus := some SUCCEEDED_STATUS
            , syncErrorDescription := r.status.syncErrorDescription } }
        , server := server
        , events := [Event.listDupQuery] ++ [Event.pdnsGet] ++
            [Event.ownObjectCall, Event.statusPatchCall,
             Event.metricsUpdate (getRRsetName r) r.spec.type
               SUCCEEDED_STATUS] } := by
      rw [reconcile_to_normal env1 server r h1get h1zone hdel hfin,
        reconcileNormal_sync_nochange env1 server r _ [] n1 server
          [Event.pdnsGet] hfail h1list h1n'
          (createOrUpdate_noop env1 server r h1rg hid) h1own h1patch]
      rfl
    rw [ho1]
    dsimp only
    have hid2 : findsIdentical server
        { r with status :=
            { lastUpdateTime :=
                some (r.status.lastUpdateTime.getD env1.now)
            , dnsEntryName := some (getRRsetName r)
            , syncStatus := some SUCCEEDED_STATUS
            , syncErrorDescription := r.status.syncErrorDescription } } =
        true := by
      rw [findsIdentical_setStatus]
      exact hid
    rw [reconcile_to_normal env2 server
        { r with status :=
            { lastUpdateTime :=
                some (r.status.lastUpdateTime.getD env1.now)
            , dnsEntryName := some (getRRsetName r)
            , syncStatus := some SUCCEEDED_STATUS
            , syncErrorDescription := r.status.syncErrorDescription } }
        h2get h2zone hdel hfin,
      reconcileNormal_sync_nochange env2 server
        { r with status :=
            { lastUpdateTime :=
                some (r.status.lastUpdateTime.getD env1.now)
            , dnsEntryName := some (getRRsetName r)
            , syncStatus := some SUCCEEDED_STATUS
            , syncErrorDescription := r.status.syncErrorDescription } }
        _ [] n2 server [Event.pdnsGet]
        (by simp [SUCCEEDED_STATUS, FAILED_STATUS]) h2list h2n'
        (createOrUpdate_noop env2 server
          { r with status :=
              { lastUpdateTime :=
                  some (r.status.lastUpdateTime.getD env1.now)
              , dnsEntryName := some (getRRsetName r)
              , syncStatus := some SUCCEEDED_STATUS
              , syncErrorDescription := r.status.syncErrorDescription } }
          h2rg hid2) h2own h2patch]
    simp

/-- C4 witness: the theorem evaluated on the concrete end-to-end object with
two successive clock readings. -/
theorem c4_witness :
    Event.pdnsChange ∉
      (reconcile { envAllOk with now := 200 }
        (reconcile envAllOk [] rrA).server
        (reconcile envAllOk [] rrA).rrset).events ∧
    (reconcile { envAllOk with now := 200 }
      (reconcile envAllOk [] rrA).server
      (reconcile envAllOk [] rrA).rrset).server =
      (reconcile envAllOk [] rrA).server ∧
    (reconcile { envAllOk with now := 200 }
      (reconcile envAllOk [] rrA).server
      (reconcile envAllOk [] rrA).rrset).rrset.status.lastUpdateTime =
      (reconcile envAllOk [] rrA).rrset.status.lastUpdateTime :=
  c4_idempotent_second_reconcile envAllOk { envAllOk with now := 200 } [] rrA
    1 1 rfl rfl rfl (by decide) rfl rfl rfl rfl rfl rfl rfl (by decide) rfl
    rfl rfl rfl rfl (by decide)

end PowerDNSOperator
